import Mathlib

/-!
# Verification of the paykit guard policy engine and provider layer

Shallow embedding of the paykit repository.  The wallet-provider layer
(`paykit/providers/__init__.py`, `paykit/providers/base.py`) is embedded
directly from the source.  The guard engine (`paykit/guards/*`) is declared
by `paykit/guards/__init__.py` but its implementation files are not in the
source tree, so those definitions are modelled from the specification
(section 3, 4 and 7 of spec.md); each such definition says so in its doc
comment.

Conventions: times are seconds since the Unix epoch, interpreted in UTC;
monetary amounts (Python `Decimal`) are embedded as `ℚ`.
-/

namespace Paykit

/-- Modelled from the spec: `PaymentContext` — immutable snapshot of a
proposed payment (wallet identifier, recipient address, positive decimal
amount, token symbol, UTC request timestamp, free-form metadata map).
The implementation file `paykit/guards/base.py` is not in the source tree. -/
structure PaymentContext where
  wallet_id : String
  recipient : String
  amount : ℚ
  token_symbol : String
  timestamp : ℕ
  metadata : List (String × String) := []
  deriving DecidableEq, Repr

/-- Modelled from the spec: `GuardResult` — outcome of one guard
evaluation: `allowed`, `guard_name`, optional `reason` (populated when
denied), metadata mapping.  `paykit/guards/base.py` is not in the source
tree. -/
structure GuardResult where
  allowed : Bool
  guard_name : String
  reason : Option String := none
  metadata : List (String × String) := []
  deriving DecidableEq, Repr

/-- Modelled from the spec: budget window kinds — calendar day / week, or a
rolling duration in seconds.  The spec also lists calendar months but gives
no boundary algorithm for them and no claim exercises them, so they are not
modelled.  `paykit/guards/budget.py` is not in the source tree. -/
inductive WindowKind where
  | daily
  | weekly
  | rolling (duration : ℕ)
  deriving DecidableEq, Repr

namespace WindowKind

/-- Modelled from the spec: whether `now` has crossed the boundary of the
current window relative to `period_start` (boundaries computed in UTC). -/
def crossed : WindowKind → ℕ → ℕ → Bool
  | .daily, period_start, now => period_start / 86400 < now / 86400
  | .weekly, period_start, now => period_start / 604800 < now / 604800
  | .rolling d, period_start, now => decide (0 < d ∧ period_start + d ≤ now)

/-- Modelled from the spec: the start of the window containing `now`,
used to advance `period_start` on rollover. -/
def advance : WindowKind → ℕ → ℕ → ℕ
  | .daily, _, now => now / 86400 * 86400
  | .weekly, _, now => now / 604800 * 604800
  | .rolling d, period_start, now =>
      period_start + (now - period_start) / d * d

end WindowKind

/-- Modelled from the spec: `BudgetGuard` state — `limit`, `window_kind`,
`period_start`, `period_spent`.  `paykit/guards/budget.py` is not in the
source tree. -/
structure BudgetGuard where
  limit : ℚ
  window : WindowKind
  period_start : ℕ
  period_spent : ℚ
  deriving DecidableEq, Repr

namespace BudgetGuard

/-- Modelled from the spec: on each `check` (and `record_spending`), first
compute whether `now` has crossed the boundary of the current window
relative to `period_start`; if so, reset `period_spent = 0` and advance
`period_start` to the start of the new window. -/
def rollover (g : BudgetGuard) (now : ℕ) : BudgetGuard :=
  if g.window.crossed g.period_start now then
    { g with period_spent := 0
             period_start := g.window.advance g.period_start now }
  else g

/-- Modelled from the spec: decision: allow iff
`period_spent + context.amount <= limit`, after the rollover check. -/
def check (g : BudgetGuard) (ctx : PaymentContext) : GuardResult × BudgetGuard :=
  let g := g.rollover ctx.timestamp
  if g.period_spent + ctx.amount ≤ g.limit then
    ({ allowed := true, guard_name := "budget" }, g)
  else
    ({ allowed := false, guard_name := "budget"
       reason := some "budget exceeded" }, g)

/-- Modelled from the spec: `record_spending` adds `context.amount` to
`period_spent`, after performing the same rollover check. -/
def record_spending (g : BudgetGuard) (ctx : PaymentContext) : BudgetGuard :=
  let g := g.rollover ctx.timestamp
  { g with period_spent := g.period_spent + ctx.amount }

theorem rollover_limit (g : BudgetGuard) (now : ℕ) :
    (g.rollover now).limit = g.limit := by
  unfold rollover; split <;> rfl

theorem check_allowed (g : BudgetGuard) (ctx : PaymentContext) :
    (g.check ctx).1.allowed = true ↔
      (g.rollover ctx.timestamp).period_spent + ctx.amount ≤ g.limit := by
  rw [← g.rollover_limit ctx.timestamp]
  simp only [check]
  split <;> simp_all

end BudgetGuard

/-- Modelled from the spec: `SingleTxGuard` — stateless, `max_amount` cap.
`paykit/guards/single_tx.py` is not in the source tree. -/
structure SingleTxGuard where
  max_amount : ℚ
  deriving DecidableEq, Repr

/-- Modelled from the spec: `SingleTxGuard.check` — allow iff
`context.amount <= max_amount`; the deny reason includes both the offending
amount and the configured cap. -/
def SingleTxGuard.check (g : SingleTxGuard) (ctx : PaymentContext) : GuardResult :=
  if ctx.amount ≤ g.max_amount then
    { allowed := true, guard_name := "single_tx" }
  else
    { allowed := false, guard_name := "single_tx"
      reason := some ("amount " ++ toString ctx.amount ++
        " exceeds per-transaction max " ++ toString g.max_amount) }

/-- Modelled from the spec: address normalization (case-fold / canonical
form) applied by RecipientGuard before comparison — character-wise
lower-casing, written over the character list so that it evaluates by
kernel reduction. -/
def normalizeAddress (a : String) : String := ⟨a.data.map Char.toLower⟩

/-- Modelled from the spec: `RecipientGuard` — `allow_list` and `deny_list`
of normalized addresses; deny takes precedence over allow.
`paykit/guards/recipient.py` is not in the source tree. -/
structure RecipientGuard where
  allow_list : List String
  deny_list : List String
  deriving DecidableEq, Repr

/-- Modelled from the spec: decision order — if the normalized recipient is
in `deny_list`, deny regardless of `allow_list`; else if `allow_list` is
non-empty, allow iff present in it; else allow by default (an empty
allow-list means no restriction). -/
def RecipientGuard.check (g : RecipientGuard) (ctx : PaymentContext) : GuardResult :=
  let r := normalizeAddress ctx.recipient
  if r ∈ g.deny_list then
    { allowed := false, guard_name := "recipient"
      reason := some "recipient is deny-listed" }
  else if g.allow_list ≠ [] then
    if r ∈ g.allow_list then
      { allowed := true, guard_name := "recipient" }
    else
      { allowed := false, guard_name := "recipient"
        reason := some "recipient not in allow list" }
  else
    { allowed := true, guard_name := "recipient" }

/-- Modelled from the spec: `RateLimitGuard` — `max_count`,
`window_duration` (seconds), `event_log` of timestamps; entries older than
`now - window_duration` are evicted lazily on each check.
`paykit/guards/rate_limit.py` is not in the source tree. -/
structure RateLimitGuard where
  max_count : ℕ
  window_duration : ℕ
  event_log : List ℕ
  deriving DecidableEq, Repr

namespace RateLimitGuard

/-- Modelled from the spec: evict all entries in `event_log` older than
`now - window_duration` (only entries within the window are retained). -/
def evict (g : RateLimitGuard) (now : ℕ) : RateLimitGuard :=
  { g with event_log :=
      g.event_log.filter (fun t => now - g.window_duration ≤ t) }

/-- Modelled from the spec: on `check`, evict, then allow iff the remaining
count is `< max_count`. -/
def check (g : RateLimitGuard) (ctx : PaymentContext) : GuardResult × RateLimitGuard :=
  let g := g.evict ctx.timestamp
  if g.event_log.length < g.max_count then
    ({ allowed := true, guard_name := "rate_limit" }, g)
  else
    ({ allowed := false, guard_name := "rate_limit"
       reason := some "rate limit exceeded" }, g)

/-- Modelled from the spec: `record_spending` appends `now` to
`event_log`. -/
def record_spending (g : RateLimitGuard) (ctx : PaymentContext) : RateLimitGuard :=
  { g with event_log := g.event_log ++ [ctx.timestamp] }

end RateLimitGuard

/-- Modelled from the spec: the external resolution signal a ConfirmGuard
check waits for — explicit approval, explicit rejection with a reason, or
the elapse of `timeout_duration` without any signal.
`paykit/guards/confirm.py` is not in the source tree. -/
inductive ConfirmResolution where
  | approved
  | rejected (why : String)
  | timedOut
  deriving DecidableEq, Repr

/-- Modelled from the spec: `ConfirmGuard` — holds `timeout_duration`; the
pending-confirmation correlation mechanism is modelled by passing the
resolution signal explicitly to `check`. -/
structure ConfirmGuard where
  timeout_duration : ℕ
  deriving DecidableEq, Repr

/-- Modelled from the spec: correlation identifier derived from the
context, surfaced via result metadata. -/
def correlationId (ctx : PaymentContext) : String :=
  ctx.wallet_id ++ ":" ++ ctx.recipient ++ ":" ++ toString ctx.timestamp

/-- Modelled from the spec: `ConfirmGuard.check` — on explicit approval,
allow; on explicit rejection, deny with that reason; on timeout, deny
(fail-closed) with reason "confirmation timed out", never propagating a
raw timeout error. -/
def ConfirmGuard.check (g : ConfirmGuard) (ctx : PaymentContext)
    (res : ConfirmResolution) : GuardResult :=
  match res with
  | .approved =>
      { allowed := true, guard_name := "confirm"
        metadata := [("confirmation_id", correlationId ctx)] }
  | .rejected why =>
      { allowed := false, guard_name := "confirm", reason := some why
        metadata := [("confirmation_id", correlationId ctx)] }
  | .timedOut =>
      { allowed := false, guard_name := "confirm"
        reason := some "confirmation timed out"
        metadata := [("confirmation_id", correlationId ctx)] }

/-- Modelled from the spec: the polymorphic `Guard` capability — one of the
five concrete guards, each owning its private state. -/
inductive Guard where
  | budget (g : BudgetGuard)
  | single_tx (g : SingleTxGuard)
  | recipient (g : RecipientGuard)
  | rate_limit (g : RateLimitGuard)
  | confirm (g : ConfirmGuard)
  deriving DecidableEq, Repr

/-- Modelled from the spec: dispatch `check` to the concrete guard,
returning the result together with the (possibly updated) guard state.
The `ConfirmResolution` is consulted only by ConfirmGuard. -/
def Guard.check : Guard → PaymentContext → ConfirmResolution → GuardResult × Guard
  | .budget g, ctx, _ =>
      let p := g.check ctx
      (p.1, .budget p.2)
  | .single_tx g, ctx, _ => (g.check ctx, .single_tx g)
  | .recipient g, ctx, _ => (g.check ctx, .recipient g)
  | .rate_limit g, ctx, _ =>
      let p := g.check ctx
      (p.1, .rate_limit p.2)
  | .confirm g, ctx, res => (g.check ctx res, .confirm g)

/-- Modelled from the spec: dispatch `record_spending`; the default is a
no-op for guards without cumulative state. -/
def Guard.record_spending : Guard → PaymentContext → Guard
  | .budget g, ctx => .budget (g.record_spending ctx)
  | .rate_limit g, ctx => .rate_limit (g.record_spending ctx)
  | g, _ => g

/-- Modelled from the spec: `AggregatedResult` — chain output: `allowed`
(AND over all constituent results), ordered `results` (one per guard
actually evaluated), `denying_guard` (name of the first denying guard). -/
structure AggregatedResult where
  allowed : Bool
  results : List GuardResult
  denying_guard : Option String
  deriving DecidableEq, Repr

/-- Modelled from the spec: `GuardChain` — ordered guards plus the
evaluation mode selected at construction; default is fail-fast.
`paykit/guards/base.py` is not in the source tree. -/
structure GuardChain where
  guards : List Guard
  fail_fast : Bool := true
  deriving DecidableEq, Repr

/-- Modelled from the spec: evaluate guards in order.  In fail-fast mode,
stop at the first denial: remaining guards are not evaluated and keep
their state.  Returns the results of the guards evaluated and the updated
guard list. -/
def runGuards (ff : Bool) (ctx : PaymentContext) (res : ConfirmResolution) :
    List Guard → List GuardResult × List Guard
  | [] => ([], [])
  | g :: gs =>
      let p := g.check ctx res
      if ff && !p.1.allowed then
        ([p.1], p.2 :: gs)
      else
        let q := runGuards ff ctx res gs
        (p.1 :: q.1, p.2 :: q.2)

/-- Modelled from the spec: aggregation — `allowed` is the AND over the
evaluated results; `denying_guard` is the name of the first denying
result. -/
def aggregate (results : List GuardResult) : AggregatedResult :=
  { allowed := results.all (fun r => r.allowed)
    results := results
    denying_guard :=
      (results.find? (fun r => !r.allowed)).map (fun r => r.guard_name) }

/-- Modelled from the spec: `GuardChain.check` — run the guards in
configured order under the chain mode and aggregate. -/
def GuardChain.check (c : GuardChain) (ctx : PaymentContext)
    (res : ConfirmResolution) : AggregatedResult × GuardChain :=
  let p := runGuards c.fail_fast ctx res c.guards
  (aggregate p.1, { c with guards := p.2 })

/-- Claim C1: for every BudgetGuard with limit `L` and a PaymentContext,
after any window rollover due at check time, `check` returns
`allowed = true` iff `period_spent + context.amount ≤ L`; an amount exactly
equal to the remaining budget is allowed; with zero prior spend in the
window every amount `≤ L` is allowed and every amount `> L` is denied. -/
theorem budget_check_allows_iff (g : BudgetGuard) (ctx : PaymentContext) :
    ((g.check ctx).1.allowed = true ↔
      (g.rollover ctx.timestamp).period_spent + ctx.amount ≤ g.limit) ∧
    ((g.rollover ctx.timestamp).period_spent + ctx.amount = g.limit →
      (g.check ctx).1.allowed = true) ∧
    ((g.rollover ctx.timestamp).period_spent = 0 →
      ((ctx.amount ≤ g.limit → (g.check ctx).1.allowed = true) ∧
       (g.limit < ctx.amount → (g.check ctx).1.allowed = false))) := by
  refine ⟨g.check_allowed ctx, ?_, ?_⟩
  · intro h
    exact (g.check_allowed ctx).mpr (le_of_eq h)
  · intro h0
    refine ⟨?_, ?_⟩
    · intro hle
      exact (g.check_allowed ctx).mpr (by rw [h0, zero_add]; exact hle)
    · intro hgt
      have : ¬ ((g.check ctx).1.allowed = true) := by
        rw [g.check_allowed ctx, h0, zero_add]
        exact not_le.mpr hgt
      simpa using this

/-- Witness for C1: a concrete guard with zero spend, limit 100, and a
payment of exactly 100 is allowed. -/
theorem budget_check_allows_iff_witness :
    (BudgetGuard.check ⟨100, .daily, 0, 0⟩
      ⟨"w1", "0xabc", 100, "USDC", 500, []⟩).1.allowed = true := by
  refine (budget_check_allows_iff ⟨100, .daily, 0, 0⟩
      ⟨"w1", "0xabc", 100, "USDC", 500, []⟩).2.1 ?_
  norm_num [BudgetGuard.rollover, WindowKind.crossed]

theorem runGuards_cons_allowed (ff : Bool) (ctx : PaymentContext)
    (res : ConfirmResolution) (g : Guard) (gs : List Guard)
    (h : (g.check ctx res).1.allowed = true) :
    runGuards ff ctx res (g :: gs) =
      ((g.check ctx res).1 :: (runGuards ff ctx res gs).1,
       (g.check ctx res).2 :: (runGuards ff ctx res gs).2) := by
  simp [runGuards, h]

theorem runGuards_cons_denied (ctx : PaymentContext)
    (res : ConfirmResolution) (g : Guard) (gs : List Guard)
    (h : (g.check ctx res).1.allowed = false) :
    runGuards true ctx res (g :: gs) =
      ([(g.check ctx res).1], (g.check ctx res).2 :: gs) := by
  simp [runGuards, h]

theorem runGuards_append_allowed (ff : Bool) (ctx : PaymentContext)
    (res : ConfirmResolution) (pre rest : List Guard)
    (hpre : ∀ g ∈ pre, (g.check ctx res).1.allowed = true) :
    runGuards ff ctx res (pre ++ rest) =
      (pre.map (fun g => (g.check ctx res).1) ++ (runGuards ff ctx res rest).1,
       pre.map (fun g => (g.check ctx res).2) ++ (runGuards ff ctx res rest).2) := by
  induction pre with
  | nil => simp
  | cons g gs ih =>
      have hg : (g.check ctx res).1.allowed = true := hpre g (by simp)
      have ih := ih (fun g hm => hpre g (by simp [hm]))
      simp only [List.cons_append, runGuards_cons_allowed ff ctx res _ _ hg, ih,
        List.map_cons]

/-- Claim C2: in fail-fast mode, GuardChain.check stops at the first guard
that denies: if every guard of `pre` allows and `d` denies, then guards
after `d` are not evaluated and keep their state, the results are exactly
those of the guards evaluated so far, the aggregated result is denied, and
`denying_guard` names `d`. -/
theorem chain_fail_fast_stops (pre : List Guard) (d : Guard)
    (post : List Guard) (ctx : PaymentContext) (res : ConfirmResolution)
    (hpre : ∀ g ∈ pre, (g.check ctx res).1.allowed = true)
    (hd : (d.check ctx res).1.allowed = false) :
    ((GuardChain.check ⟨pre ++ d :: post, true⟩ ctx res).1.allowed = false) ∧
    ((GuardChain.check ⟨pre ++ d :: post, true⟩ ctx res).1.results =
      pre.map (fun g => (g.check ctx res).1) ++ [(d.check ctx res).1]) ∧
    ((GuardChain.check ⟨pre ++ d :: post, true⟩ ctx res).1.denying_guard =
      some (d.check ctx res).1.guard_name) ∧
    ((GuardChain.check ⟨pre ++ d :: post, true⟩ ctx res).2.guards =
      pre.map (fun g => (g.check ctx res).2) ++ (d.check ctx res).2 :: post) := by
  have hrun : runGuards true ctx res (pre ++ d :: post) =
      (pre.map (fun g => (g.check ctx res).1) ++ [(d.check ctx res).1],
       pre.map (fun g => (g.check ctx res).2) ++ (d.check ctx res).2 :: post) := by
    rw [runGuards_append_allowed true ctx res pre (d :: post) hpre,
      runGuards_cons_denied ctx res d post hd]
  have hfind : (pre.map (fun g => (g.check ctx res).1)).find?
      (fun r => !r.allowed) = none := by
    rw [List.find?_eq_none]
    intro r hr
    rcases List.mem_map.mp hr with ⟨g, hg, rfl⟩
    simp [hpre g hg]
  refine ⟨?_, ?_, ?_, ?_⟩
  · simp [GuardChain.check, hrun, aggregate, hd]
  · simp [GuardChain.check, hrun, aggregate]
  · simp [GuardChain.check, hrun, aggregate, List.find?_append, hfind, hd]
  · simp [GuardChain.check, hrun]

/-- Witness for C2: the chain `[SingleTxGuard(max=25), BudgetGuard(daily
limit=100)]` in fail-fast mode denies a context with amount 30, with
`denying_guard = "single_tx"`, and the BudgetGuard state is unchanged. -/
theorem chain_fail_fast_stops_witness :
    ((GuardChain.check
        ⟨[.single_tx ⟨25⟩, .budget ⟨100, .daily, 0, 0⟩], true⟩
        ⟨"w1", "0xabc", 30, "USDC", 500, []⟩ .timedOut).1.allowed = false) ∧
    ((GuardChain.check
        ⟨[.single_tx ⟨25⟩, .budget ⟨100, .daily, 0, 0⟩], true⟩
        ⟨"w1", "0xabc", 30, "USDC", 500, []⟩ .timedOut).1.denying_guard =
      some "single_tx") ∧
    ((GuardChain.check
        ⟨[.single_tx ⟨25⟩, .budget ⟨100, .daily, 0, 0⟩], true⟩
        ⟨"w1", "0xabc", 30, "USDC", 500, []⟩ .timedOut).2.guards =
      [.single_tx ⟨25⟩, .budget ⟨100, .daily, 0, 0⟩]) := by
  have hd : ((Guard.single_tx ⟨25⟩).check
      ⟨"w1", "0xabc", 30, "USDC", 500, []⟩ .timedOut).1.allowed = false := by
    have : ¬ ((30 : ℚ) ≤ 25) := by norm_num
    simp [Guard.check, SingleTxGuard.check, this]
  have h := chain_fail_fast_stops [] (.single_tx ⟨25⟩)
    [.budget ⟨100, .daily, 0, 0⟩] ⟨"w1", "0xabc", 30, "USDC", 500, []⟩
    .timedOut (by simp) hd
  have hname : ((Guard.single_tx ⟨25⟩).check
      ⟨"w1", "0xabc", 30, "USDC", 500, []⟩ .timedOut).1.guard_name =
      "single_tx" := by
    have : ¬ ((30 : ℚ) ≤ 25) := by norm_num
    simp [Guard.check, SingleTxGuard.check, this]
  have hstate : ((Guard.single_tx ⟨25⟩).check
      ⟨"w1", "0xabc", 30, "USDC", 500, []⟩ .timedOut).2 =
      Guard.single_tx ⟨25⟩ := by
    simp [Guard.check]
  simp only [List.nil_append, List.map_nil] at h
  exact ⟨h.1, by rw [h.2.2.1, hname], by rw [h.2.2.2, hstate]⟩

/-- Claim C3: for every RecipientGuard and PaymentContext: if the
normalized recipient is in `deny_list`, check denies regardless of
`allow_list`; otherwise, if `allow_list` is non-empty, check allows iff the
normalized recipient is in `allow_list`; otherwise check allows — so with
an empty allow-list and a deny-list containing `X`, payments to `X` are
denied and payments to every other address are allowed. -/
theorem recipient_check_decision (g : RecipientGuard) (ctx : PaymentContext) :
    (normalizeAddress ctx.recipient ∈ g.deny_list →
      (g.check ctx).allowed = false) ∧
    (normalizeAddress ctx.recipient ∉ g.deny_list → g.allow_list ≠ [] →
      ((g.check ctx).allowed = true ↔
        normalizeAddress ctx.recipient ∈ g.allow_list)) ∧
    (normalizeAddress ctx.recipient ∉ g.deny_list → g.allow_list = [] →
      (g.check ctx).allowed = true) := by
  refine ⟨?_, ?_, ?_⟩
  · intro hdeny
    simp [RecipientGuard.check, hdeny]
  · intro hdeny hne
    by_cases hall : normalizeAddress ctx.recipient ∈ g.allow_list <;>
      simp [RecipientGuard.check, hdeny, hne, hall]
  · intro hdeny hnil
    simp [RecipientGuard.check, hdeny, hnil]

/-- Witness for C3: with an empty allow-list and deny-list `["0xbad"]`,
a payment to `0xBAD` is denied and a payment to `0xgood` is allowed. -/
theorem recipient_check_decision_witness :
    ((RecipientGuard.check ⟨[], ["0xbad"]⟩
        ⟨"w1", "0xBAD", 5, "USDC", 0, []⟩).allowed = false) ∧
    ((RecipientGuard.check ⟨[], ["0xbad"]⟩
        ⟨"w1", "0xgood", 5, "USDC", 0, []⟩).allowed = true) := by
  constructor
  · exact (recipient_check_decision ⟨[], ["0xbad"]⟩
      ⟨"w1", "0xBAD", 5, "USDC", 0, []⟩).1 (by decide)
  · exact (recipient_check_decision ⟨[], ["0xbad"]⟩
      ⟨"w1", "0xgood", 5, "USDC", 0, []⟩).2.2 (by decide) rfl

/-- Context used in the rate-limit scenario: only the timestamp matters to
RateLimitGuard. -/
def rlCtx (t : ℕ) : PaymentContext := ⟨"w1", "0xabc", 1, "USDC", t, []⟩

/-- One recorded call against a RateLimitGuard at time `t`: check (which
evicts) followed by record_spending. -/
def rlStep (g : RateLimitGuard) (t : ℕ) : RateLimitGuard :=
  ((g.check (rlCtx t)).2).record_spending (rlCtx t)

/-- Claim C4: RateLimitGuard.check at time `now` first evicts every
event_log entry older than `now - window_duration`, then allows iff the
remaining count is `< max_count`; record_spending appends `now`.
Consequently with max_count 3 and a 60-second window, three immediate
recorded calls are allowed, a fourth within 60 seconds is denied, and
after 61 seconds have elapsed a call is allowed again. -/
theorem rate_limit_check_spec (g : RateLimitGuard) (ctx : PaymentContext) :
    ((g.check ctx).2.event_log =
      g.event_log.filter (fun t => ctx.timestamp - g.window_duration ≤ t)) ∧
    ((g.check ctx).1.allowed = true ↔
      (g.event_log.filter
        (fun t => ctx.timestamp - g.window_duration ≤ t)).length <
        g.max_count) ∧
    ((g.record_spending ctx).event_log = g.event_log ++ [ctx.timestamp]) ∧
    ((RateLimitGuard.check ⟨3, 60, []⟩ (rlCtx 1000)).1.allowed = true ∧
     ((rlStep ⟨3, 60, []⟩ 1000).check (rlCtx 1000)).1.allowed = true ∧
     ((rlStep (rlStep ⟨3, 60, []⟩ 1000) 1000).check
        (rlCtx 1000)).1.allowed = true ∧
     ((rlStep (rlStep (rlStep ⟨3, 60, []⟩ 1000) 1000) 1000).check
        (rlCtx 1030)).1.allowed = false ∧
     ((rlStep (rlStep (rlStep ⟨3, 60, []⟩ 1000) 1000) 1000).check
        (rlCtx 1061)).1.allowed = true) := by
  refine ⟨?_, ?_, ?_, by decide⟩
  · simp only [RateLimitGuard.check, RateLimitGuard.evict]
    split <;> rfl
  · simp only [RateLimitGuard.check, RateLimitGuard.evict]
    split <;> simp_all
  · rfl

theorem budget_check_snd (g : BudgetGuard) (ctx : PaymentContext) :
    (g.check ctx).2 = g.rollover ctx.timestamp := by
  simp only [BudgetGuard.check]
  split <;> rfl

theorem budget_rollover_spent_nonneg (g : BudgetGuard) (now : ℕ)
    (h : 0 ≤ g.period_spent) : 0 ≤ (g.rollover now).period_spent := by
  unfold BudgetGuard.rollover
  split
  · simp
  · exact h

/-- Claim C5: `period_spent ≥ 0` is preserved by check and record_spending
(for the positive amounts PaymentContext carries); `period_spent` is reset
to zero exactly when the time observed by check or record_spending has
crossed the UTC window boundary relative to `period_start`, with
`period_start` advanced to the start of the new window, and the state is
untouched otherwise; and spending 100 against a daily limit of 100 fully
consumes the budget — a further payment of 100 the same day is denied, but
after the UTC day boundary a payment of 100 is allowed again. -/
theorem budget_spent_invariant (g : BudgetGuard) (ctx : PaymentContext) :
    (0 ≤ g.period_spent → 0 ≤ ((g.check ctx).2).period_spent) ∧
    (0 ≤ g.period_spent → 0 ≤ ctx.amount →
      0 ≤ (g.record_spending ctx).period_spent) ∧
    (g.window.crossed g.period_start ctx.timestamp = true →
      (g.rollover ctx.timestamp).period_spent = 0 ∧
      (g.rollover ctx.timestamp).period_start =
        g.window.advance g.period_start ctx.timestamp) ∧
    (g.window.crossed g.period_start ctx.timestamp = false →
      g.rollover ctx.timestamp = g) ∧
    (((BudgetGuard.record_spending ⟨100, .daily, 0, 0⟩
        ⟨"w1", "0xabc", 100, "USDC", 1000, []⟩).check
        ⟨"w1", "0xabc", 100, "USDC", 2000, []⟩).1.allowed = false ∧
     ((BudgetGuard.record_spending ⟨100, .daily, 0, 0⟩
        ⟨"w1", "0xabc", 100, "USDC", 1000, []⟩).check
        ⟨"w1", "0xabc", 100, "USDC", 87400, []⟩).1.allowed = true) := by
  refine ⟨?_, ?_, ?_, ?_, ?_, ?_⟩
  · intro h
    rw [budget_check_snd]
    exact budget_rollover_spent_nonneg g ctx.timestamp h
  · intro h ha
    unfold BudgetGuard.record_spending
    exact add_nonneg (budget_rollover_spent_nonneg g ctx.timestamp h) ha
  · intro hc
    unfold BudgetGuard.rollover
    simp [hc]
  · intro hc
    unfold BudgetGuard.rollover
    simp [hc]
  · norm_num [BudgetGuard.record_spending, BudgetGuard.check,
      BudgetGuard.rollover, WindowKind.crossed, WindowKind.advance]
  · norm_num [BudgetGuard.record_spending, BudgetGuard.check,
      BudgetGuard.rollover, WindowKind.crossed, WindowKind.advance]

/-- Witness for C5: nonnegativity and rollover at a concrete guard — after
recording 100 at time 1000 against a fresh daily guard, `period_spent` is
nonnegative, and a check at 87400 (past the UTC day boundary) resets the
window. -/
theorem budget_spent_invariant_witness :
    (0 ≤ ((BudgetGuard.check ⟨100, .daily, 0, (0 : ℚ)⟩
        ⟨"w1", "0xabc", 100, "USDC", 1000, []⟩).2).period_spent) ∧
    ((BudgetGuard.rollover ⟨100, .daily, 0, (100 : ℚ)⟩ 87400).period_spent = 0) := by
  constructor
  · exact (budget_spent_invariant ⟨100, .daily, 0, (0 : ℚ)⟩
      ⟨"w1", "0xabc", 100, "USDC", 1000, []⟩).1 le_rfl
  · exact ((budget_spent_invariant ⟨100, .daily, 0, (100 : ℚ)⟩
      ⟨"w1", "0xabc", 100, "USDC", 87400, []⟩).2.2.1 (by decide)).1

/-- Claim C7: ConfirmGuard.check allows exactly on explicit approval — in
particular it never allows merely because no resolution signal arrived —
and on timeout it resolves to a denial with reason
"confirmation timed out" rather than propagating a raw timeout error. -/
theorem confirm_check_fail_closed (g : ConfirmGuard) (ctx : PaymentContext)
    (res : ConfirmResolution) :
    ((g.check ctx res).allowed = true ↔ res = .approved) ∧
    ((g.check ctx .timedOut).allowed = false ∧
     (g.check ctx .timedOut).reason = some "confirmation timed out") := by
  refine ⟨?_, by simp [ConfirmGuard.check], by simp [ConfirmGuard.check]⟩
  cases res <;> simp [ConfirmGuard.check]

/-- Modelled from the spec: `ConfigurationError` — invalid or unregistered
guard kind, or invalid params, surfaced at build time. -/
inductive ConfigurationError where
  | unregisteredKind (kind : String)
  | invalidParams (kind : String) (msg : String)
  deriving DecidableEq, Repr

/-- Modelled from the spec: the `params` mapping of one GuardConfig entry.
Fields not supplied by the config are `none`. -/
structure GuardParams where
  max_amount : Option ℚ := none
  limit : Option ℚ := none
  window : Option String := none
  allow_list : Option (List String) := none
  deny_list : Option (List String) := none
  max_count : Option ℕ := none
  window_duration : Option ℕ := none
  timeout_duration : Option ℕ := none
  deriving DecidableEq, Repr

/-- Modelled from the spec: one declarative GuardConfig entry,
`{kind, params}`. -/
structure ConfigEntry where
  kind : String
  params : GuardParams
  deriving DecidableEq, Repr

/-- Modelled from the spec: `GuardConfig` — ordered sequence of entries. -/
abbrev GuardConfig := List ConfigEntry

/-- Modelled from the spec: constructor for kind `single_tx`; a negative
limit fails validation. -/
def mkSingleTx (p : GuardParams) : Except ConfigurationError Guard :=
  match p.max_amount with
  | none => .error (.invalidParams "single_tx" "max_amount is required")
  | some a =>
      if a < 0 then .error (.invalidParams "single_tx" "negative limit")
      else .ok (.single_tx ⟨a⟩)

/-- Modelled from the spec: constructor for kind `budget`; a negative limit
or an unknown window kind fails validation; a rolling window must have a
positive duration.  The window defaults to daily, matching the
`daily_limit` construction shown in `paykit/guards/__init__.py`. -/
def mkBudget (p : GuardParams) : Except ConfigurationError Guard :=
  match p.limit with
  | none => .error (.invalidParams "budget" "limit is required")
  | some l =>
      if l < 0 then .error (.invalidParams "budget" "negative limit")
      else
        match p.window with
        | some "daily" => .ok (.budget ⟨l, .daily, 0, 0⟩)
        | some "weekly" => .ok (.budget ⟨l, .weekly, 0, 0⟩)
        | some _ => .error (.invalidParams "budget" "unknown window kind")
        | none =>
            match p.window_duration with
            | some d =>
                if d = 0 then
                  .error (.invalidParams "budget" "non-positive window duration")
                else .ok (.budget ⟨l, .rolling d, 0, 0⟩)
            | none => .ok (.budget ⟨l, .daily, 0, 0⟩)

/-- Modelled from the spec: constructor for kind `recipient`; lists are
normalized at construction; an absent list means no restriction. -/
def mkRecipient (p : GuardParams) : Except ConfigurationError Guard :=
  .ok (.recipient ⟨(p.allow_list.getD []).map normalizeAddress,
    (p.deny_list.getD []).map normalizeAddress⟩)

/-- Modelled from the spec: constructor for kind `rate_limit`; a
non-positive window duration fails validation. -/
def mkRateLimit (p : GuardParams) : Except ConfigurationError Guard :=
  match p.max_count, p.window_duration with
  | some m, some d =>
      if d = 0 then
        .error (.invalidParams "rate_limit" "non-positive window duration")
      else .ok (.rate_limit ⟨m, d, []⟩)
  | _, _ =>
      .error (.invalidParams "rate_limit"
        "max_count and window_duration are required")

/-- Modelled from the spec: constructor for kind `confirm`; a non-positive
timeout fails validation. -/
def mkConfirm (p : GuardParams) : Except ConfigurationError Guard :=
  match p.timeout_duration with
  | none => .error (.invalidParams "confirm" "timeout_duration is required")
  | some t =>
      if t = 0 then
        .error (.invalidParams "confirm" "non-positive timeout")
      else .ok (.confirm ⟨t⟩)

/-- Modelled from the spec: `GuardManager` — owns a registry mapping
`kind → constructor(params) → Guard`, mutable only through an explicit
registration call. -/
structure GuardManager where
  registry : List (String × (GuardParams → Except ConfigurationError Guard))

/-- Modelled from the spec: the manager with the built-in kinds
`single_tx`, `budget`, `recipient`, `rate_limit`, `confirm`. -/
def GuardManager.builtin : GuardManager :=
  ⟨[("single_tx", mkSingleTx), ("budget", mkBudget),
    ("recipient", mkRecipient), ("rate_limit", mkRateLimit),
    ("confirm", mkConfirm)]⟩

/-- Modelled from the spec: `register(kind, constructor)` adds or overrides
an entry (lookups see the most recent registration first). -/
def GuardManager.register (m : GuardManager) (kind : String)
    (ctor : GuardParams → Except ConfigurationError Guard) : GuardManager :=
  ⟨(kind, ctor) :: m.registry⟩

/-- Modelled from the spec: build one guard from a config entry — look up
the constructor by kind (unregistered kinds are a configuration error) and
invoke it with the params. -/
def buildGuard (m : GuardManager) (e : ConfigEntry) :
    Except ConfigurationError Guard :=
  match m.registry.lookup e.kind with
  | none => .error (.unregisteredKind e.kind)
  | some ctor => ctor e.params

/-- Modelled from the spec: build the guards in config order, failing on
the first configuration error. -/
def buildGuards (m : GuardManager) : GuardConfig → Except ConfigurationError (List Guard)
  | [] => .ok []
  | e :: rest =>
      match buildGuard m e with
      | .error err => .error err
      | .ok g =>
          match buildGuards m rest with
          | .error err => .error err
          | .ok gs => .ok (g :: gs)

/-- Modelled from the spec: `build(config) -> GuardChain` — construct a
GuardChain preserving configuration order (default mode fail-fast), or
fail with a ConfigurationError. -/
def GuardManager.build (m : GuardManager) (cfg : GuardConfig) :
    Except ConfigurationError GuardChain :=
  match buildGuards m cfg with
  | .error err => .error err
  | .ok gs => .ok { guards := gs, fail_fast := true }

theorem buildGuards_error_of_mem (m : GuardManager) (cfg : GuardConfig)
    (e : ConfigEntry) (hm : e ∈ cfg) (err : ConfigurationError)
    (he : buildGuard m e = .error err) :
    ∃ e2, buildGuards m cfg = .error e2 := by
  induction cfg with
  | nil => cases hm
  | cons a rest ih =>
      rcases List.mem_cons.mp hm with rfl | hm2
      · exact ⟨err, by simp [buildGuards, he]⟩
      · simp only [buildGuards]
        cases ha : buildGuard m a with
        | error e3 => exact ⟨e3, rfl⟩
        | ok g =>
            rcases ih hm2 with ⟨e2, h2⟩
            exact ⟨e2, by simp [h2]⟩

/-- A budget config entry with a negative limit. -/
def negativeLimitCfg : GuardConfig := [⟨"budget", { limit := some (-1) }⟩]

/-- A rate_limit config entry with a zero window duration. -/
def zeroWindowCfg : GuardConfig :=
  [⟨"rate_limit", { max_count := some 3, window_duration := some 0 }⟩]

/-- A config entry with a kind no registry entry covers. -/
def unknownKindCfg : GuardConfig := [⟨"no_such_kind", {}⟩]

/-- Claim C6: GuardManager.build raises a ConfigurationError, returning no
GuardChain, whenever any entry of the config has an unregistered kind or
params failing that guard's validation; in particular a budget entry with
a negative limit, a rate_limit entry with a zero window duration, and an
unregistered kind each fail at build time, never silently defaulted. -/
theorem build_config_error (m : GuardManager) (cfg : GuardConfig)
    (h : ∃ e ∈ cfg, m.registry.lookup e.kind = none ∨
      ∃ ctor, m.registry.lookup e.kind = some ctor ∧
        ∃ err, ctor e.params = .error err) :
    ((∃ err, m.build cfg = .error err) ∧
      ∀ c, m.build cfg ≠ .ok c) ∧
    ((∃ err, GuardManager.builtin.build negativeLimitCfg = .error err) ∧
     (∃ err, GuardManager.builtin.build zeroWindowCfg = .error err) ∧
     (∃ err, GuardManager.builtin.build unknownKindCfg = .error err)) := by
  have hone : ∀ e : ConfigEntry, (m.registry.lookup e.kind = none ∨
      ∃ ctor, m.registry.lookup e.kind = some ctor ∧
        ∃ err, ctor e.params = .error err) →
      ∃ err, buildGuard m e = .error err := by
    intro e he
    rcases he with hnone | ⟨ctor, hc, err, herr⟩
    · exact ⟨.unregisteredKind e.kind, by simp [buildGuard, hnone]⟩
    · exact ⟨err, by simp [buildGuard, hc, herr]⟩
  constructor
  · rcases h with ⟨e, hm, he⟩
    rcases hone e he with ⟨err, herr⟩
    rcases buildGuards_error_of_mem m cfg e hm err herr with ⟨e2, h2⟩
    refine ⟨⟨e2, by simp [GuardManager.build, h2]⟩, ?_⟩
    intro c hc
    simp [GuardManager.build, h2] at hc
  · refine ⟨⟨.invalidParams "budget" "negative limit", ?_⟩,
      ⟨.invalidParams "rate_limit" "non-positive window duration", ?_⟩,
      ⟨.unregisteredKind "no_such_kind", ?_⟩⟩
    · have : ((-1 : ℚ) < 0) := by norm_num
      simp [GuardManager.build, buildGuards, buildGuard, negativeLimitCfg,
        GuardManager.builtin, List.lookup, mkBudget, this]
    · simp [GuardManager.build, buildGuards, buildGuard, zeroWindowCfg,
        GuardManager.builtin, List.lookup, mkRateLimit]
    · simp [GuardManager.build, buildGuards, buildGuard, unknownKindCfg,
        GuardManager.builtin, List.lookup]

/-- Witness for C6: building from a config whose budget entry has a
negative limit yields a ConfigurationError and no chain. -/
theorem build_config_error_witness :
    (∃ err, GuardManager.builtin.build negativeLimitCfg = .error err) ∧
    ∀ c, GuardManager.builtin.build negativeLimitCfg ≠ .ok c := by
  refine (build_config_error GuardManager.builtin negativeLimitCfg
    ⟨⟨"budget", { limit := some (-1) }⟩,
      by simp [negativeLimitCfg], Or.inr ⟨mkBudget, ?_, ?_⟩⟩).1
  · simp [GuardManager.builtin, List.lookup]
  · have : ((-1 : ℚ) < 0) := by norm_num
    exact ⟨.invalidParams "budget" "negative limit", by simp [mkBudget, this]⟩

/-- Claim C8: building a GuardChain twice from the identical GuardConfig
yields chains with identical guards and initial state, and identical
decisions for every identical input — construction and evaluation are
deterministic in the config and input. -/
theorem build_deterministic (m : GuardManager) (cfg : GuardConfig)
    (c₁ c₂ : GuardChain) (h₁ : m.build cfg = .ok c₁)
    (h₂ : m.build cfg = .ok c₂) :
    c₁ = c₂ ∧ ∀ ctx res, c₁.check ctx res = c₂.check ctx res := by
  have h := h₁.symm.trans h₂
  have hc : c₁ = c₂ := by
    cases h
    rfl
  exact ⟨hc, fun ctx res => by rw [hc]⟩

/-- Witness for C8: the chain built from
`[single_tx {max_amount := 25}]` is uniquely determined. -/
theorem build_deterministic_witness :
    (⟨[.single_tx ⟨25⟩], true⟩ : GuardChain) = ⟨[.single_tx ⟨25⟩], true⟩ := by
  have h : GuardManager.builtin.build [⟨"single_tx", { max_amount := some 25 }⟩] =
      .ok ⟨[.single_tx ⟨25⟩], true⟩ := by
    have : ¬ ((25 : ℚ) < 0) := by norm_num
    simp [GuardManager.build, buildGuards, buildGuard,
      GuardManager.builtin, List.lookup, mkSingleTx, this]
  exact (build_deterministic GuardManager.builtin
    [⟨"single_tx", { max_amount := some 25 }⟩] _ _ h h).1

/-! ## Wallet providers — embedded from `paykit/providers/base.py` and
`paykit/providers/__init__.py`. -/

/-- `ProviderType` (`base.py`): a str-valued enum with declared members
`circle` and `coinbase`.  `register_provider`'s documented usage
(`ProviderType("my-provider")`) introduces further values, modelled by the
`custom` constructor carrying the member's string value. -/
inductive ProviderType where
  | circle
  | coinbase
  | custom (value : String)
  deriving DecidableEq, Repr

/-- The string value of a ProviderType member (the enum is a str
subclass). -/
def ProviderType.value : ProviderType → String
  | .circle => "circle"
  | .coinbase => "coinbase"
  | .custom v => v

/-- `CircleConfig` (`circle.py`, fields used by `_build_circle_config`);
`timeout` is a float embedded as ℚ. -/
structure CircleConfig where
  api_key : String
  entity_secret : String
  environment : String
  timeout : ℚ
  deriving DecidableEq, Repr

/-- `CoinbaseConfig` (`coinbase.py`, fields used by
`_build_coinbase_config`). -/
structure CoinbaseConfig where
  api_key : String
  api_secret : String
  environment : String
  timeout : ℚ
  deriving DecidableEq, Repr

/-- The provider instances `get_provider` can construct: the dispatch at
the end of `get_provider` instantiates only `CircleProvider` and
`CoinbaseProvider`. -/
inductive Provider where
  | circleProvider (cfg : CircleConfig)
  | coinbaseProvider (cfg : CoinbaseConfig)
  deriving DecidableEq, Repr

/-- A provider class as stored in the `_PROVIDERS` registry
(`type[WalletProvider]` in the source): one of the two shipped classes or
a custom class registered through `register_provider`. -/
inductive ProviderClass where
  | circleClass
  | coinbaseClass
  | customClass (name : String)
  deriving DecidableEq, Repr

/-- The `_PROVIDERS` registry: `dict[ProviderType, type[WalletProvider]]`,
modelled as an association list where lookup takes the most recent
binding. -/
def initialProviders : List (ProviderType × ProviderClass) :=
  [(.circle, .circleClass), (.coinbase, .coinbaseClass)]

/-- `register_provider` (`providers/__init__.py` lines 118-138):
`_PROVIDERS[provider_type] = provider_class` — adds or overrides the
registry entry. -/
def register_provider (reg : List (ProviderType × ProviderClass))
    (provider_type : ProviderType) (provider_class : ProviderClass) :
    List (ProviderType × ProviderClass) :=
  (provider_type, provider_class) :: reg

/-- Keyword arguments accepted by `get_provider`; absent keys are `none`. -/
structure ProviderKwargs where
  api_key : Option String := none
  entity_secret : Option String := none
  api_secret : Option String := none
  environment : Option String := none
  timeout : Option ℚ := none
  deriving DecidableEq, Repr

/-- Python `kwargs.get(k) or default`: `None` and the empty string are both
falsy, so either falls through to the default. -/
def pyOrString (a : Option String) (b : String) : String :=
  match a with
  | none => b
  | some s => if s = "" then b else s

/-- `_build_circle_config`: kwargs with fallback to the `CIRCLE_API_KEY` /
`ENTITY_SECRET` environment variables, environment defaulting to
"testnet" and timeout to 30. -/
def buildCircleConfig (env : String → Option String)
    (kw : ProviderKwargs) : CircleConfig :=
  { api_key := pyOrString kw.api_key ((env "CIRCLE_API_KEY").getD "")
    entity_secret := pyOrString kw.entity_secret ((env "ENTITY_SECRET").getD "")
    environment := kw.environment.getD "testnet"
    timeout := kw.timeout.getD 30 }

/-- `_build_coinbase_config`: kwargs with fallback to the
`COINBASE_API_KEY` / `COINBASE_API_SECRET` environment variables. -/
def buildCoinbaseConfig (env : String → Option String)
    (kw : ProviderKwargs) : CoinbaseConfig :=
  { api_key := pyOrString kw.api_key ((env "COINBASE_API_KEY").getD "")
    api_secret := pyOrString kw.api_secret ((env "COINBASE_API_SECRET").getD "")
    environment := kw.environment.getD "testnet"
    timeout := kw.timeout.getD 30 }

/-- `get_provider` (`providers/__init__.py` lines 48-95), for a
provider_type already resolved to a ProviderType member (the str / None
coercion at the top of the function maps every lowercase-valued member to
itself and is not modelled): look the class up in `_PROVIDERS`, raising
ValueError "Unknown provider type" on a miss; then dispatch — construct
CircleProvider for CIRCLE, CoinbaseProvider for COINBASE, and otherwise
raise ValueError "Provider not implemented".  A raise is modelled as
`Except.error` carrying the message. -/
def get_provider (reg : List (ProviderType × ProviderClass))
    (env : String → Option String) (provider_type : ProviderType)
    (kw : ProviderKwargs) : Except String Provider :=
  match reg.lookup provider_type with
  | none => .error ("Unknown provider type: " ++ provider_type.value)
  | some _ =>
      match provider_type with
      | .circle => .ok (.circleProvider (buildCircleConfig env kw))
      | .coinbase => .ok (.coinbaseProvider (buildCoinbaseConfig env kw))
      | .custom v => .error ("Provider not implemented: " ++ v)

/-- Claim C9: for every provider type other than CIRCLE and COINBASE,
get_provider raises ValueError even after register_provider has added a
constructor for that type to the registry: the dispatch after the registry
lookup constructs only CircleProvider and CoinbaseProvider and otherwise
raises "Provider not implemented", so a registered custom provider class
is never instantiated by get_provider. -/
theorem get_provider_never_custom (reg : List (ProviderType × ProviderClass))
    (env : String → Option String) (pt : ProviderType)
    (cls : ProviderClass) (kw : ProviderKwargs)
    (h1 : pt ≠ .circle) (h2 : pt ≠ .coinbase) :
    (get_provider (register_provider reg pt cls) env pt kw =
      .error ("Provider not implemented: " ++ pt.value)) ∧
    ∀ p, get_provider (register_provider reg pt cls) env pt kw ≠ .ok p := by
  have hlookup : (register_provider reg pt cls).lookup pt = some cls := by
    simp [register_provider, List.lookup]
  cases pt with
  | circle => exact absurd rfl h1
  | coinbase => exact absurd rfl h2
  | custom v =>
      constructor
      · simp [get_provider, hlookup, ProviderType.value]
      · intro p hp
        simp [get_provider, hlookup] at hp

/-- Witness for C9: registering a class for the member valued
"my-provider" and asking get_provider for it still raises "Provider not
implemented". -/
theorem get_provider_never_custom_witness :
    get_provider
      (register_provider initialProviders (.custom "my-provider")
        (.customClass "MyProvider"))
      (fun _ => none) (.custom "my-provider") {} =
      .error "Provider not implemented: my-provider" := by
  exact (get_provider_never_custom initialProviders (fun _ => none)
    (.custom "my-provider") (.customClass "MyProvider") {}
    (by simp) (by simp)).1

/-- `TokenBalance` (`base.py`): universal token balance representation.
The provider-specific `raw` dict carries no data the embedded operations
read and is not modelled. -/
structure TokenBalance where
  token_id : String
  token_symbol : String
  amount : ℚ
  blockchain : String
  deriving DecidableEq, Repr

/-- ASCII upper-casing as Python `str.upper` performs on these symbols,
written over the character list so that it evaluates by kernel
reduction. -/
def upperSymbol (s : String) : String := ⟨s.data.map Char.toUpper⟩

/-- `WalletProvider.get_usdc_balance` (`base.py` lines 173-179) applied to
the balance list obtained from `get_balances`: return the amount of the
first balance whose upper-cased token_symbol is "USDC", else
`Decimal("0")`. -/
def get_usdc_balance : List TokenBalance → ℚ
  | [] => 0
  | b :: rest =>
      if upperSymbol b.token_symbol = "USDC" then b.amount
      else get_usdc_balance rest

/-- Claim C10: get_usdc_balance returns the amount of the first balance
whose token_symbol upper-cases exactly to "USDC", and 0 when no balance
matches (in particular for an empty list); "USDC-TESTNET" does not match
and contributes zero. -/
theorem get_usdc_balance_first_match (balances : List TokenBalance) :
    (get_usdc_balance balances =
      match balances.find?
          (fun b => upperSymbol b.token_symbol == "USDC") with
      | some b => b.amount
      | none => 0) ∧
    (get_usdc_balance [] = 0) ∧
    ((∀ b ∈ balances, upperSymbol b.token_symbol ≠ "USDC") →
      get_usdc_balance balances = 0) ∧
    (upperSymbol "USDC-TESTNET" ≠ "USDC" ∧
      get_usdc_balance [⟨"t1", "USDC-TESTNET", 7, "ETH-SEPOLIA"⟩] = 0 ∧
      get_usdc_balance [⟨"t1", "USDC-TESTNET", 7, "ETH-SEPOLIA"⟩,
        ⟨"t2", "usdc", 5, "ETH-SEPOLIA"⟩] = 5) := by
  refine ⟨?_, rfl, ?_, by decide, by decide, by decide⟩
  · induction balances with
    | nil => rfl
    | cons b rest ih =>
        by_cases hb : upperSymbol b.token_symbol = "USDC"
        · simp [get_usdc_balance, hb, List.find?_cons]
        · simp only [get_usdc_balance, hb, if_false, ih, List.find?_cons]
          have : (upperSymbol b.token_symbol == "USDC") = false := by
            simpa using hb
          simp [this]
  · intro hall
    induction balances with
    | nil => rfl
    | cons b rest ih =>
        have hb : upperSymbol b.token_symbol ≠ "USDC" := hall b (by simp)
        simp only [get_usdc_balance, hb, if_false]
        exact ih (fun x hx => hall x (by simp [hx]))

/-- Witness for C10: a list holding only a "USDC-TESTNET" balance has no
match, so the USDC balance is 0. -/
theorem get_usdc_balance_first_match_witness :
    get_usdc_balance [⟨"t1", "USDC-TESTNET", 7, "ETH-SEPOLIA"⟩] = 0 := by
  exact (get_usdc_balance_first_match
    [⟨"t1", "USDC-TESTNET", 7, "ETH-SEPOLIA"⟩]).2.2.1 (by decide)

end Paykit
